import Mathlib

/-!
Verification of the spreadsheet export module (`hairstyle_analyzer/core/excel_exporter.py`).

The module builds a single-sheet workbook from a list of analysis records:
it writes a header row from an `ExcelConfig`, one data row per record (nine
fixed columns A..I), auto-adjusts column widths, applies styles, and then
serializes either to a file (`export`, with backup of an existing target) or
to bytes via a temporary file (`get_binary_data`).

We model the worksheet as a total function from (row, column) positions to
cells together with a list of touched positions (openpyxl's used range grows
with each assignment, and `sheet.columns` iterates the bounding rectangle of
the touched cells).  Column letters A..I are modelled by their 1-based column
indices 1..9.  Cell values are modelled by `Value`: `null` is Python's `None`
(whose `str()` is "None", of length 4), `str s` a string value, and `bad` a
value whose stringification raises (the `try/except: pass` in
`_adjust_column_widths` skips it).  Column widths are exact rationals; the
Python float literal `1.1` is modelled as the rational `11/10`.

The filesystem, needed for the backup and temporary-file claims, is an
association list from paths to contents; failure points of the external I/O
operations (mkdir, copy, save, read) are injected through boolean flags.
-/

namespace HSA

/-- Cell values as seen by the exporter. -/
inductive Value where
  | null
  | str (s : String)
  | bad
deriving DecidableEq, Repr

/-- Length of `str(v)` in Python, or `none` when `str`/`len` raises
(`Value.bad`).  `str(None) = "None"` has length 4. -/
def tryLen : Value → Option Nat
  | Value.null => some 4
  | Value.str s => some s.length
  | Value.bad => Option.none

/-- openpyxl `Alignment(horizontal=..., vertical=..., wrap_text=...)`. -/
structure Alignment where
  horizontal : Option String
  vertical : Option String
  wrap_text : Bool
deriving DecidableEq, Repr

/-- openpyxl `Font(bold=..., size=..., color=...)`. -/
structure Font where
  bold : Bool
  size : Nat
  color : String
deriving DecidableEq, Repr

/-- openpyxl `PatternFill(start_color=..., end_color=..., fill_type=...)`. -/
structure PatternFill where
  start_color : String
  end_color : String
  fill_type : String
deriving DecidableEq, Repr

/-- openpyxl `Side(style=...)`. -/
structure BorderSide where
  style : Option String
deriving DecidableEq, Repr

/-- openpyxl `Border(left=..., right=..., top=..., bottom=...)`. -/
structure Border where
  left : BorderSide
  right : BorderSide
  top : BorderSide
  bottom : BorderSide
deriving DecidableEq, Repr

/-- One worksheet cell: a value and four optional style components
(openpyxl's defaults are modelled as `none`). -/
structure Cell where
  value : Value
  font : Option Font
  fill : Option PatternFill
  alignment : Option Alignment
  border : Option Border
deriving DecidableEq, Repr

/-- A fresh, untouched cell. -/
def Cell.empty : Cell :=
  { value := Value.null, font := Option.none, fill := Option.none,
    alignment := Option.none, border := Option.none }

/-- A worksheet: a total grid of cells, the list of touched (row, column)
positions (tracking openpyxl's used range), and the per-column display
widths (`column_dimensions[letter].width`, unset is `none`). -/
structure Sheet where
  cells : Nat → Nat → Cell
  touched : List (Nat × Nat)
  widths : Nat → Option ℚ

/-- The sheet of a freshly created workbook. -/
def Sheet.empty : Sheet :=
  { cells := fun _ _ => Cell.empty, touched := [], widths := fun _ => Option.none }

/-- Write a value into the cell at (row `r`, column `c`). -/
def Sheet.setValue (s : Sheet) (r c : Nat) (v : Value) : Sheet :=
  { s with
    cells := fun r' c' =>
      if r' = r ∧ c' = c then { s.cells r c with value := v } else s.cells r' c'
    touched := (r, c) :: s.touched }

/-- Assign the font of the cell at (`r`, `c`). -/
def Sheet.setFont (s : Sheet) (r c : Nat) (f : Font) : Sheet :=
  { s with
    cells := fun r' c' =>
      if r' = r ∧ c' = c then { s.cells r c with font := some f } else s.cells r' c'
    touched := (r, c) :: s.touched }

/-- Assign the fill of the cell at (`r`, `c`). -/
def Sheet.setFill (s : Sheet) (r c : Nat) (f : PatternFill) : Sheet :=
  { s with
    cells := fun r' c' =>
      if r' = r ∧ c' = c then { s.cells r c with fill := some f } else s.cells r' c'
    touched := (r, c) :: s.touched }

/-- Assign the alignment of the cell at (`r`, `c`). -/
def Sheet.setAlignment (s : Sheet) (r c : Nat) (a : Alignment) : Sheet :=
  { s with
    cells := fun r' c' =>
      if r' = r ∧ c' = c then { s.cells r c with alignment := some a } else s.cells r' c'
    touched := (r, c) :: s.touched }

/-- Assign the border of the cell at (`r`, `c`). -/
def Sheet.setBorder (s : Sheet) (r c : Nat) (b : Border) : Sheet :=
  { s with
    cells := fun r' c' =>
      if r' = r ∧ c' = c then { s.cells r c with border := some b } else s.cells r' c'
    touched := (r, c) :: s.touched }

/-- Set the display width of column `c` (`sheet.column_dimensions[letter].width = w`). -/
def Sheet.setWidth (s : Sheet) (c : Nat) (w : ℚ) : Sheet :=
  { s with widths := fun c' => if c' = c then some w else s.widths c' }

/-- Modelled from the spec: `ResultRecord` (the `ProcessResult` model of
`hairstyle_analyzer/data/models.py`, which is outside `src/`) exposes exactly
nine accessors consumed in fixed order: stylist-name, coupon-name, comment,
title, sex, length, menu, hashtag, image-name.  We model the nested accessor
paths used by `_add_data`. -/
structure StylistInfo where
  name : String
deriving DecidableEq, Repr

/-- Modelled from the spec: the coupon sub-record, exposing `name`. -/
structure CouponInfo where
  name : String
deriving DecidableEq, Repr

/-- Modelled from the spec: the template sub-record, exposing `comment`,
`title`, `menu` and `hashtag`. -/
structure TemplateInfo where
  comment : String
  title : String
  menu : String
  hashtag : String
deriving DecidableEq, Repr

/-- Modelled from the spec: the attribute-analysis sub-record, exposing
`sex` and `length`. -/
structure AttributeAnalysis where
  sex : String
  length : String
deriving DecidableEq, Repr

/-- Modelled from the spec: one analysis record, read-only, with the nine
string accessors used by `_add_data`. -/
structure ProcessResult where
  selected_stylist : StylistInfo
  selected_coupon : CouponInfo
  selected_template : TemplateInfo
  attribute_analysis : AttributeAnalysis
  image_name : String
deriving DecidableEq, Repr

/-- Modelled from the spec: `ExcelConfig` (from
`hairstyle_analyzer/data/models.py`, outside `src/`) is an ordered mapping
from column position (1-indexed, standing for the column letter) to header
label.  Invariant per the spec: non-empty, positions unique. -/
structure ExcelConfig where
  headers : List (Nat × String)
deriving DecidableEq, Repr

/-- `ExcelExporter._set_headers`: for each (column, label) pair of the
config, write the label into row 1 at that column. -/
def setHeaders (config : ExcelConfig) (s : Sheet) : Sheet :=
  config.headers.foldl (fun sh p => sh.setValue 1 p.1 (Value.str p.2)) s

/-- One iteration of the `_add_data` loop: write the nine fields of one
record into columns A..I (1..9) of row `i`. -/
def writeRow (s : Sheet) (i : Nat) (result : ProcessResult) : Sheet :=
  ((((((((s.setValue i 1 (Value.str result.selected_stylist.name)).setValue
      i 2 (Value.str result.selected_coupon.name)).setValue
      i 3 (Value.str result.selected_template.comment)).setValue
      i 4 (Value.str result.selected_template.title)).setValue
      i 5 (Value.str result.attribute_analysis.sex)).setValue
      i 6 (Value.str result.attribute_analysis.length)).setValue
      i 7 (Value.str result.selected_template.menu)).setValue
      i 8 (Value.str result.selected_template.hashtag)).setValue
      i 9 (Value.str result.image_name)

/-- The `for i, result in enumerate(results, start=row)` loop of `_add_data`. -/
def addDataFrom (s : Sheet) (row : Nat) : List ProcessResult → Sheet
  | [] => s
  | result :: rest => addDataFrom (writeRow s row result) (row + 1) rest

/-- `ExcelExporter._add_data`: rows are enumerated from 2 (row 1 is the
header row). -/
def addData (s : Sheet) (results : List ProcessResult) : Sheet :=
  addDataFrom s 2 results

/-- Maximum of a list of naturals (0 when empty). -/
def listMaxNat (l : List Nat) : Nat := l.foldr max 0

/-- Minimum of a non-empty list of naturals (0 when empty). -/
def listMinNat : List Nat → Nat
  | [] => 0
  | [x] => x
  | x :: y :: ys => min x (listMinNat (y :: ys))

/-- Smallest touched row of the sheet (openpyxl `min_row`). -/
def Sheet.minRow (s : Sheet) : Nat := listMinNat (s.touched.map Prod.fst)

/-- Largest touched row of the sheet (openpyxl `max_row`). -/
def Sheet.maxRow (s : Sheet) : Nat := listMaxNat (s.touched.map Prod.fst)

/-- Smallest touched column of the sheet (openpyxl `min_column`). -/
def Sheet.minCol (s : Sheet) : Nat := listMinNat (s.touched.map Prod.snd)

/-- Largest touched column of the sheet (openpyxl `max_column`). -/
def Sheet.maxCol (s : Sheet) : Nat := listMaxNat (s.touched.map Prod.snd)

/-- The values of column `c` as iterated by `sheet.columns`: one cell per row
of the sheet's bounding rectangle. -/
def colCells (s : Sheet) (c : Nat) : List Value :=
  (List.range' s.minRow (s.maxRow + 1 - s.minRow)).map (fun r => (s.cells r c).value)

/-- The `max_length` loop of `_adjust_column_widths`: starting from 0, take
each cell's stringified length when `len(str(...))` succeeds, and skip the
cell (`except: pass`) when it raises. -/
def maxLenOf (vs : List Value) : Nat :=
  vs.foldl (fun m v => match tryLen v with
    | some n => if n > m then n else m
    | Option.none => m) 0

/-- `adjusted_width = (max_length + 2) * 1.1`, with the float literal `1.1`
modelled as the exact rational 11/10. -/
def adjustedWidth (maxLength : Nat) : ℚ := ((maxLength : ℚ) + 2) * (11 / 10)

/-- Python's two-argument `min` on rationals. -/
def ratMin (a b : ℚ) : ℚ := if a ≤ b then a else b

/-- Python's two-argument `max` on rationals. -/
def ratMax (a b : ℚ) : ℚ := if a ≤ b then b else a

/-- `max(min_width, min(max_width, adjusted_width))` with
`min_width = 10`, `max_width = 50`. -/
def clampWidth (maxLength : Nat) : ℚ :=
  ratMax 10 (ratMin 50 (adjustedWidth maxLength))

/-- `ExcelExporter._adjust_column_widths`: for every column of the sheet's
bounding rectangle, set its width to the clamped adjusted width of its
longest stringified cell value.  Setting a width does not modify any cell,
so the per-column scans read the cells of the input sheet. -/
def adjustColumnWidths (s : Sheet) : Sheet :=
  (List.range' s.minCol (s.maxCol + 1 - s.minCol)).foldl
    (fun sh c => sh.setWidth c (clampWidth (maxLenOf (colCells s c)))) s

/-- `Font(bold=True, size=12, color="FFFFFF")`. -/
def headerFont : Font := { bold := true, size := 12, color := "FFFFFF" }

/-- `PatternFill(start_color="4472C4", end_color="4472C4", fill_type="solid")`. -/
def headerFill : PatternFill :=
  { start_color := "4472C4", end_color := "4472C4", fill_type := "solid" }

/-- `Alignment(horizontal="center", vertical="center", wrap_text=True)`. -/
def headerAlignment : Alignment :=
  { horizontal := some "center", vertical := some "center", wrap_text := true }

/-- `Side(style='thin')`. -/
def thinSide : BorderSide := { style := some "thin" }

/-- `Border(left=thin, right=thin, top=thin, bottom=thin)`. -/
def thinBorder : Border :=
  { left := thinSide, right := thinSide, top := thinSide, bottom := thinSide }

/-- `Alignment(vertical="center", wrap_text=True)` used for data rows. -/
def dataAlignment : Alignment :=
  { horizontal := Option.none, vertical := some "center", wrap_text := true }

/-- The `Alignment(vertical="center", wrap_text=True)` constructed afresh in
the `col == 8` special case of `_apply_styles`. -/
def hashtagAlignment : Alignment :=
  { horizontal := Option.none, vertical := some "center", wrap_text := true }

/-- One iteration of the header-style loop of `_apply_styles`. -/
def applyHeaderStyle (s : Sheet) (col : Nat) : Sheet :=
  (((s.setFont 1 col headerFont).setFill 1 col headerFill).setAlignment
    1 col headerAlignment).setBorder 1 col thinBorder

/-- One iteration of the data-style inner loop of `_apply_styles`: alignment
and border, then the explicit re-application for column 8 (the H column). -/
def applyDataStyle (s : Sheet) (row col : Nat) : Sheet :=
  let s1 := (s.setAlignment row col dataAlignment).setBorder row col thinBorder
  if col = 8 then s1.setAlignment row col hashtagAlignment else s1

/-- `ExcelExporter._apply_styles`: style the header cells in columns
`1..len(config.headers)`, then every cell of rows `2..row_count+1` in the
same column range. -/
def applyStyles (config : ExcelConfig) (s : Sheet) (row_count : Nat) : Sheet :=
  let s1 := (List.range' 1 config.headers.length).foldl applyHeaderStyle s
  (List.range' 2 row_count).foldl
    (fun sh row =>
      (List.range' 1 config.headers.length).foldl
        (fun sh2 col => applyDataStyle sh2 row col) sh) s1

/-- The in-memory construction pipeline shared by `export` and
`get_binary_data`: fresh workbook, headers, data, column widths, styles. -/
def buildSheet (config : ExcelConfig) (results : List ProcessResult) : Sheet :=
  applyStyles config
    (adjustColumnWidths (addData (setHeaders config Sheet.empty) results))
    results.length

/-- A file path split as `pathlib.Path` exposes it: parent directory,
stem, and suffix (extension).  The rendered path is `parent/stem ++ suffix`. -/
structure FilePath where
  parent : String
  stem : String
  suffix : String
deriving DecidableEq, Repr

/-- The rendered (string) form of a path. -/
def FilePath.render (p : FilePath) : String :=
  p.parent ++ "/" ++ p.stem ++ p.suffix

/-- File contents: either opaque pre-existing bytes (`raw`) or a serialized
workbook, identified by its sheet.  Serialization is injective on sheets, so
byte-identity of saved workbooks is sheet equality. -/
inductive Content where
  | raw (id : Nat)
  | wb (sheet : Sheet)

/-- Association-list filesystem: look up a path's contents. -/
def fsLookup : List (FilePath × Content) → FilePath → Option Content
  | [], _ => Option.none
  | (k, v) :: rest, p => if k = p then some v else fsLookup rest p

/-- Remove a path from the filesystem (`os.unlink`, idempotent here). -/
def fsErase : List (FilePath × Content) → FilePath → List (FilePath × Content)
  | [], _ => []
  | (k, v) :: rest, p => if k = p then fsErase rest p else (k, v) :: fsErase rest p

/-- Write a file (create or overwrite). -/
def fsInsert (fs : List (FilePath × Content)) (p : FilePath) (c : Content) :
    List (FilePath × Content) :=
  (p, c) :: fsErase fs p

/-- A wall-clock instant as used by `datetime.now().strftime("%Y%m%d_%H%M%S")`. -/
structure Timestamp where
  year : Nat
  month : Nat
  day : Nat
  hour : Nat
  minute : Nat
  second : Nat
deriving DecidableEq, Repr

/-- Zero-pad the decimal form of `n` to at least `k` digits, as `strftime`
does for `%Y` (4 digits) and `%m %d %H %M %S` (2 digits). -/
def padNum (k n : Nat) : String :=
  let s := toString n
  String.mk (List.replicate (k - s.length) '0') ++ s

/-- `strftime("%Y%m%d_%H%M%S")`. -/
def timestampStr (t : Timestamp) : String :=
  padNum 4 t.year ++ padNum 2 t.month ++ padNum 2 t.day ++ "_" ++
    padNum 2 t.hour ++ padNum 2 t.minute ++ padNum 2 t.second

/-- `ExcelExporter._create_backup`'s target path:
`file_path.with_name(f"{stem}_{timestamp}_backup{suffix}")` — a sibling of
`file_path` whose name is the original stem, the timestamp and `_backup`,
keeping the original extension. -/
def backupPath (p : FilePath) (t : Timestamp) : FilePath :=
  { parent := p.parent, stem := p.stem ++ "_" ++ timestampStr t ++ "_backup",
    suffix := p.suffix }

/-- The underlying failure wrapped by an `ExcelExportError` (its `__cause__`). -/
inductive Cause where
  | mkdirFailed
  | copyFailed
  | saveFailed
  | readFailed
deriving DecidableEq, Repr

/-- `ExcelExportError(message, output_path=...)`, with the wrapped cause. -/
structure ExcelExportError where
  msg : String
  output_path : Option String
  cause : Option Cause
deriving Repr

/-- Failure environment of one `export` call: the filesystem before the
call, and whether each external I/O operation raises. -/
structure World where
  fs : List (FilePath × Content)
  mkdirFails : Bool
  copyFails : Bool
  saveFails : Bool

/-- Modelled from the spec: the decorator `with_error_handling(ExcelExportError, msg)`
from `hairstyle_analyzer/utils/errors.py` (outside `src/`) catches any
underlying failure escaping the operation body and re-raises it as an
`ExcelExportError` wrapping the original cause; for file export the error
carries the target path for diagnostics. -/
def wrapError (msg : String) (path : Option String) (c : Cause) : ExcelExportError :=
  { msg := msg, output_path := path, cause := some c }

/-- `ExcelExporter.export`: create the parent directory, back up an existing
file at `output_path`, build the workbook, and save it.  `t` is the wall
clock read by `_create_backup`.  Returns the result together with the
filesystem after the call. -/
def exportFn (config : ExcelConfig) (results : List ProcessResult)
    (output_path : FilePath) (t : Timestamp) (w : World) :
    Except ExcelExportError FilePath × List (FilePath × Content) :=
  if w.mkdirFails then
    (Except.error (wrapError "Excel出力処理でエラーが発生しました"
      (some output_path.render) Cause.mkdirFailed), w.fs)
  else
    match fsLookup w.fs output_path with
    | some orig =>
      if w.copyFails then
        (Except.error (wrapError "Excel出力処理でエラーが発生しました"
          (some output_path.render) Cause.copyFailed), w.fs)
      else
        let fs1 := fsInsert w.fs (backupPath output_path t) orig
        let sheet := buildSheet config results
        if w.saveFails then
          (Except.error (wrapError "Excelファイルの保存に失敗しました"
            (some output_path.render) Cause.saveFailed), fs1)
        else
          (Except.ok output_path, fsInsert fs1 output_path (Content.wb sheet))
    | Option.none =>
      let sheet := buildSheet config results
      if w.saveFails then
        (Except.error (wrapError "Excelファイルの保存に失敗しました"
          (some output_path.render) Cause.saveFailed), w.fs)
      else
        (Except.ok output_path, fsInsert w.fs output_path (Content.wb sheet))

/-- Failure environment of one `get_binary_data` call: the filesystem, the
fresh unique temporary path handed out by `tempfile.NamedTemporaryFile`, and
whether save or read-back raises. -/
structure TmpWorld where
  fs : List (FilePath × Content)
  tmpPath : FilePath
  saveFails : Bool
  readFails : Bool

/-- `ExcelExporter.get_binary_data`: build the workbook, create a named
temporary file, save into it, read the bytes back, and delete the temporary
file; on any failure inside the `try`, the `except` removes the temporary
file if it still exists before re-raising as `ExcelExportError` (no
`output_path` on this path). -/
def getBinaryData (config : ExcelConfig) (results : List ProcessResult)
    (w : TmpWorld) : Except ExcelExportError Content × List (FilePath × Content) :=
  let sheet := buildSheet config results
  let fs1 := fsInsert w.fs w.tmpPath (Content.raw 0)
  if w.saveFails then
    (Except.error (wrapError "Excelバイナリデータの生成に失敗しました"
      Option.none Cause.saveFailed), fsErase fs1 w.tmpPath)
  else
    let fs2 := fsInsert fs1 w.tmpPath (Content.wb sheet)
    if w.readFails then
      (Except.error (wrapError "Excelバイナリデータの生成に失敗しました"
        Option.none Cause.readFailed), fsErase fs2 w.tmpPath)
    else
      (Except.ok (Content.wb sheet), fsErase fs2 w.tmpPath)

/-- Row `r` of sheet `s` holds exactly the nine fields of `res` in the fixed
column order A..I used by `_add_data`. -/
def rowMatches (s : Sheet) (r : Nat) (res : ProcessResult) : Prop :=
  (s.cells r 1).value = Value.str res.selected_stylist.name ∧
  (s.cells r 2).value = Value.str res.selected_coupon.name ∧
  (s.cells r 3).value = Value.str res.selected_template.comment ∧
  (s.cells r 4).value = Value.str res.selected_template.title ∧
  (s.cells r 5).value = Value.str res.attribute_analysis.sex ∧
  (s.cells r 6).value = Value.str res.attribute_analysis.length ∧
  (s.cells r 7).value = Value.str res.selected_template.menu ∧
  (s.cells r 8).value = Value.str res.selected_template.hashtag ∧
  (s.cells r 9).value = Value.str res.image_name

/-- The cause wrapped by the first failure `export` runs into, in the order
the operations occur in its body: mkdir, then backup copy (only when a file
exists at the target), then save. -/
def firstCause (w : World) (hasOrig : Bool) : Cause :=
  if w.mkdirFails then Cause.mkdirFailed
  else if hasOrig && w.copyFails then Cause.copyFailed
  else Cause.saveFailed

/-- A concrete record used to instantiate hypothesis-bearing theorems. -/
def sampleRecord : ProcessResult :=
  { selected_stylist := { name := "Tanaka" }
    selected_coupon := { name := "CutCoupon" }
    selected_template :=
      { comment := "a nice style", title := "natural bob",
        menu := "cut and color", hashtag := "#bob #natural" }
    attribute_analysis := { sex := "ladies", length := "bob" }
    image_name := "img001.png" }

/-- A concrete nine-column header config used to instantiate theorems. -/
def sampleConfig : ExcelConfig :=
  { headers := [(1, "stylist"), (2, "coupon"), (3, "comment"), (4, "title"),
    (5, "sex"), (6, "length"), (7, "menu"), (8, "hashtag"), (9, "image")] }

/-- A concrete output path. -/
def samplePath : FilePath := { parent := "out", stem := "style", suffix := ".xlsx" }

/-- A concrete wall-clock instant. -/
def sampleTime : Timestamp :=
  { year := 2025, month := 3, day := 14, hour := 9, minute := 26, second := 53 }

/-- A concrete temporary-file path. -/
def sampleTmpPath : FilePath := { parent := "tmp", stem := "tmpab12", suffix := ".xlsx" }

/-- A small sheet with one string cell and one cell whose value cannot be
stringified. -/
def sampleSheet : Sheet :=
  (Sheet.empty.setValue 1 1 (Value.str "a rather long header")).setValue 2 1 Value.bad

/-- A filesystem already holding a file at the sample output path. -/
def sampleFS : List (FilePath × Content) := [(samplePath, Content.raw 7)]

/-- A world in which every external operation succeeds and the target does
not exist yet. -/
def sampleWorld : World :=
  { fs := [], mkdirFails := false, copyFails := false, saveFails := false }

/-- A world in which directory creation fails. -/
def sampleWorldMkdirFail : World :=
  { fs := [], mkdirFails := true, copyFails := false, saveFails := false }

/-- A world in which the target file already exists and all operations
succeed. -/
def sampleWorldExisting : World :=
  { fs := sampleFS, mkdirFails := false, copyFails := false, saveFails := false }

/-- A byte-export world whose temporary path is fresh. -/
def sampleTmpWorld : TmpWorld :=
  { fs := sampleFS, tmpPath := sampleTmpPath, saveFails := false, readFails := false }

/-- A second byte-export world with a different temporary path and starting
filesystem. -/
def sampleTmpWorld2 : TmpWorld :=
  { fs := [], tmpPath := { parent := "tmp", stem := "tmpcd34", suffix := ".xlsx" },
    saveFails := false, readFails := false }

/-! ### Basic lemmas about the cell setters -/

theorem setValue_cells_ne (s : Sheet) (r c : Nat) (v : Value) (r' c' : Nat)
    (h : ¬(r' = r ∧ c' = c)) : (s.setValue r c v).cells r' c' = s.cells r' c' := by
  simp [Sheet.setValue, h]

theorem setValue_value_self (s : Sheet) (r c : Nat) (v : Value) :
    ((s.setValue r c v).cells r c).value = v := by
  simp [Sheet.setValue]

theorem setValue_styleParts (s : Sheet) (r c : Nat) (v : Value) (r' c' : Nat) :
    ((s.setValue r c v).cells r' c').font = (s.cells r' c').font ∧
    ((s.setValue r c v).cells r' c').fill = (s.cells r' c').fill ∧
    ((s.setValue r c v).cells r' c').alignment = (s.cells r' c').alignment ∧
    ((s.setValue r c v).cells r' c').border = (s.cells r' c').border := by
  simp only [Sheet.setValue]
  by_cases h : r' = r ∧ c' = c
  · obtain ⟨h1, h2⟩ := h; subst h1; subst h2; simp
  · simp [h]

theorem setValue_widths (s : Sheet) (r c : Nat) (v : Value) :
    (s.setValue r c v).widths = s.widths := rfl

theorem setFont_value (s : Sheet) (r c : Nat) (f : Font) (r' c' : Nat) :
    ((s.setFont r c f).cells r' c').value = (s.cells r' c').value := by
  simp only [Sheet.setFont]
  by_cases h : r' = r ∧ c' = c
  · obtain ⟨h1, h2⟩ := h; subst h1; subst h2; simp
  · simp [h]

theorem setFill_value (s : Sheet) (r c : Nat) (f : PatternFill) (r' c' : Nat) :
    ((s.setFill r c f).cells r' c').value = (s.cells r' c').value := by
  simp only [Sheet.setFill]
  by_cases h : r' = r ∧ c' = c
  · obtain ⟨h1, h2⟩ := h; subst h1; subst h2; simp
  · simp [h]

theorem setAlignment_value (s : Sheet) (r c : Nat) (a : Alignment) (r' c' : Nat) :
    ((s.setAlignment r c a).cells r' c').value = (s.cells r' c').value := by
  simp only [Sheet.setAlignment]
  by_cases h : r' = r ∧ c' = c
  · obtain ⟨h1, h2⟩ := h; subst h1; subst h2; simp
  · simp [h]

theorem setBorder_value (s : Sheet) (r c : Nat) (b : Border) (r' c' : Nat) :
    ((s.setBorder r c b).cells r' c').value = (s.cells r' c').value := by
  simp only [Sheet.setBorder]
  by_cases h : r' = r ∧ c' = c
  · obtain ⟨h1, h2⟩ := h; subst h1; subst h2; simp
  · simp [h]

theorem setFont_cells_ne (s : Sheet) (r c : Nat) (f : Font) (r' c' : Nat)
    (h : ¬(r' = r ∧ c' = c)) : (s.setFont r c f).cells r' c' = s.cells r' c' := by
  simp [Sheet.setFont, h]

theorem setFill_cells_ne (s : Sheet) (r c : Nat) (f : PatternFill) (r' c' : Nat)
    (h : ¬(r' = r ∧ c' = c)) : (s.setFill r c f).cells r' c' = s.cells r' c' := by
  simp [Sheet.setFill, h]

theorem setAlignment_cells_ne (s : Sheet) (r c : Nat) (a : Alignment) (r' c' : Nat)
    (h : ¬(r' = r ∧ c' = c)) : (s.setAlignment r c a).cells r' c' = s.cells r' c' := by
  simp [Sheet.setAlignment, h]

theorem setBorder_cells_ne (s : Sheet) (r c : Nat) (b : Border) (r' c' : Nat)
    (h : ¬(r' = r ∧ c' = c)) : (s.setBorder r c b).cells r' c' = s.cells r' c' := by
  simp [Sheet.setBorder, h]

theorem setWidth_cells (s : Sheet) (c : Nat) (w : ℚ) :
    (s.setWidth c w).cells = s.cells := rfl

theorem setWidth_touched (s : Sheet) (c : Nat) (w : ℚ) :
    (s.setWidth c w).touched = s.touched := rfl

theorem setWidth_widths (s : Sheet) (c : Nat) (w : ℚ) (c' : Nat) :
    (s.setWidth c w).widths c' = if c' = c then some w else s.widths c' := rfl

/-! ### Generic lemmas about folds over sheets -/

theorem foldl_cells_eq_of_mem {α : Type} (f : Sheet → α → Sheet) (r c : Nat) :
    ∀ (L : List α) (s : Sheet),
      (∀ sh a, a ∈ L → (f sh a).cells r c = sh.cells r c) →
      (L.foldl f s).cells r c = s.cells r c := by
  intro L
  induction L with
  | nil => intro s _; rfl
  | cons a L ih =>
    intro s h
    have h1 : (L.foldl f (f s a)).cells r c = (f s a).cells r c :=
      ih (f s a) (fun sh b hb => h sh b (List.mem_cons_of_mem _ hb))
    calc ((a :: L).foldl f s).cells r c = (L.foldl f (f s a)).cells r c := rfl
      _ = (f s a).cells r c := h1
      _ = s.cells r c := h s a (List.mem_cons_self a L)

theorem foldl_value_eq {α : Type} (f : Sheet → α → Sheet)
    (hf : ∀ sh a r c, ((f sh a).cells r c).value = (sh.cells r c).value) :
    ∀ (L : List α) (s : Sheet) (r c : Nat),
      ((L.foldl f s).cells r c).value = (s.cells r c).value := by
  intro L
  induction L with
  | nil => intro s r c; rfl
  | cons a L ih =>
    intro s r c
    calc (((a :: L).foldl f s).cells r c).value
        = ((L.foldl f (f s a)).cells r c).value := rfl
      _ = ((f s a).cells r c).value := ih (f s a) r c
      _ = (s.cells r c).value := hf s a r c

theorem foldl_widths_eq {α : Type} (f : Sheet → α → Sheet)
    (hf : ∀ sh a, (f sh a).widths = sh.widths) :
    ∀ (L : List α) (s : Sheet), (L.foldl f s).widths = s.widths := by
  intro L
  induction L with
  | nil => intro s; rfl
  | cons a L ih =>
    intro s
    calc ((a :: L).foldl f s).widths = (L.foldl f (f s a)).widths := rfl
      _ = (f s a).widths := ih (f s a)
      _ = s.widths := hf s a

theorem foldl_touched_mono {α : Type} (f : Sheet → α → Sheet)
    (hf : ∀ sh a x, x ∈ sh.touched → x ∈ (f sh a).touched) :
    ∀ (L : List α) (s : Sheet) (x : Nat × Nat),
      x ∈ s.touched → x ∈ (L.foldl f s).touched := by
  intro L
  induction L with
  | nil => intro s x hx; exact hx
  | cons a L ih => intro s x hx; exact ih (f s a) x (hf s a x hx)

/-! ### Lemmas about `writeRow` and `addDataFrom` -/

theorem writeRow_cells_ne (s : Sheet) (i : Nat) (res : ProcessResult) (r c : Nat)
    (h : r ≠ i) : (writeRow s i res).cells r c = s.cells r c := by
  have hh : ∀ k : Nat, ¬(r = i ∧ c = k) := fun k hk => h hk.1
  simp only [writeRow]
  rw [setValue_cells_ne _ _ _ _ _ _ (hh 9), setValue_cells_ne _ _ _ _ _ _ (hh 8),
    setValue_cells_ne _ _ _ _ _ _ (hh 7), setValue_cells_ne _ _ _ _ _ _ (hh 6),
    setValue_cells_ne _ _ _ _ _ _ (hh 5), setValue_cells_ne _ _ _ _ _ _ (hh 4),
    setValue_cells_ne _ _ _ _ _ _ (hh 3), setValue_cells_ne _ _ _ _ _ _ (hh 2),
    setValue_cells_ne _ _ _ _ _ _ (hh 1)]

theorem writeRow_matches (s : Sheet) (i : Nat) (res : ProcessResult) :
    rowMatches (writeRow s i res) i res := by
  simp [rowMatches, writeRow, Sheet.setValue]

theorem writeRow_widths (s : Sheet) (i : Nat) (res : ProcessResult) :
    (writeRow s i res).widths = s.widths := rfl

theorem addDataFrom_cells_lt :
    ∀ (rs : List ProcessResult) (s : Sheet) (row r c : Nat), r < row →
      (addDataFrom s row rs).cells r c = s.cells r c := by
  intro rs
  induction rs with
  | nil => intro s row r c _; rfl
  | cons a rest ih =>
    intro s row r c h
    calc (addDataFrom (writeRow s row a) (row + 1) rest).cells r c
        = (writeRow s row a).cells r c :=
          ih (writeRow s row a) (row + 1) r c (Nat.lt_succ_of_lt h)
      _ = s.cells r c := writeRow_cells_ne s row a r c (Nat.ne_of_lt h)

theorem addDataFrom_matches :
    ∀ (rs : List ProcessResult) (s : Sheet) (row i : Nat) (h : i < rs.length),
      rowMatches (addDataFrom s row rs) (row + i) (rs.get ⟨i, h⟩) := by
  intro rs
  induction rs with
  | nil => intro s row i h; exact absurd h (Nat.not_lt_zero i)
  | cons a rest ih =>
    intro s row i h
    cases i with
    | zero =>
      have key : ∀ k : Nat,
          (addDataFrom (writeRow s row a) (row + 1) rest).cells row k =
            (writeRow s row a).cells row k :=
        fun k => addDataFrom_cells_lt rest (writeRow s row a) (row + 1) row k
          (Nat.lt_succ_self row)
      have hw := writeRow_matches s row a
      simp only [rowMatches] at hw ⊢
      simp only [addDataFrom, Nat.add_zero, key, List.get]
      exact hw
    | succ j =>
      have hj : j < rest.length := Nat.lt_of_succ_lt_succ h
      have := ih (writeRow s row a) (row + 1) j hj
      have harith : row + (j + 1) = (row + 1) + j := by omega
      simp only [addDataFrom, harith, List.get]
      exact this

theorem addDataFrom_widths :
    ∀ (rs : List ProcessResult) (s : Sheet) (row : Nat),
      (addDataFrom s row rs).widths = s.widths := by
  intro rs
  induction rs with
  | nil => intro s row; rfl
  | cons a rest ih =>
    intro s row
    calc (addDataFrom (writeRow s row a) (row + 1) rest).widths
        = (writeRow s row a).widths := ih (writeRow s row a) (row + 1)
      _ = s.widths := rfl

/-! ### Lemmas about the header-writing fold -/

theorem headersFold_cells_ne_row (L : List (Nat × String)) (s : Sheet) (r c : Nat)
    (h : r ≠ 1) :
    (L.foldl (fun sh p => sh.setValue 1 p.1 (Value.str p.2)) s).cells r c =
      s.cells r c :=
  foldl_cells_eq_of_mem _ r c L s
    (fun sh p _ => setValue_cells_ne sh 1 p.1 _ r c (fun hk => h hk.1))

theorem headersFold_cells_not_mem (L : List (Nat × String)) (s : Sheet) (c : Nat)
    (h : c ∉ L.map Prod.fst) :
    (L.foldl (fun sh p => sh.setValue 1 p.1 (Value.str p.2)) s).cells 1 c =
      s.cells 1 c :=
  foldl_cells_eq_of_mem _ 1 c L s
    (fun sh p hp => setValue_cells_ne sh 1 p.1 _ 1 c
      (fun hk => h (hk.2 ▸ List.mem_map_of_mem Prod.fst hp)))

theorem headersFold_value_mem :
    ∀ (L : List (Nat × String)) (s : Sheet) (c : Nat) (l : String),
      (L.map Prod.fst).Nodup → (c, l) ∈ L →
      ((L.foldl (fun sh p => sh.setValue 1 p.1 (Value.str p.2)) s).cells 1 c).value =
        Value.str l := by
  intro L
  induction L with
  | nil => intro s c l _ hm; exact absurd hm (List.not_mem_nil _)
  | cons q L ih =>
    intro s c l hnd hm
    have hnd1 : q.1 ∉ L.map Prod.fst := (List.nodup_cons.mp hnd).1
    have hnd2 : (L.map Prod.fst).Nodup := (List.nodup_cons.mp hnd).2
    rcases List.mem_cons.mp hm with heq | hmem
    · subst heq
      have hnd1' : c ∉ L.map Prod.fst := by simpa using hnd1
      show ((L.foldl (fun sh p => sh.setValue 1 p.1 (Value.str p.2))
        (s.setValue 1 c (Value.str l))).cells 1 c).value = Value.str l
      rw [headersFold_cells_not_mem L (s.setValue 1 c (Value.str l)) c hnd1',
        setValue_value_self]
    · exact ih (s.setValue 1 q.1 (Value.str q.2)) c l hnd2 hmem

theorem headersFold_styleParts :
    ∀ (L : List (Nat × String)) (s : Sheet) (r c : Nat),
      ((L.foldl (fun sh p => sh.setValue 1 p.1 (Value.str p.2)) s).cells r c).font =
          (s.cells r c).font ∧
        ((L.foldl (fun sh p => sh.setValue 1 p.1 (Value.str p.2)) s).cells r c).fill =
          (s.cells r c).fill ∧
        ((L.foldl (fun sh p => sh.setValue 1 p.1 (Value.str p.2)) s).cells r c).alignment =
          (s.cells r c).alignment ∧
        ((L.foldl (fun sh p => sh.setValue 1 p.1 (Value.str p.2)) s).cells r c).border =
          (s.cells r c).border := by
  intro L
  induction L with
  | nil => intro s r c; exact ⟨rfl, rfl, rfl, rfl⟩
  | cons q L ih =>
    intro s r c
    obtain ⟨h1, h2, h3, h4⟩ := ih (s.setValue 1 q.1 (Value.str q.2)) r c
    obtain ⟨g1, g2, g3, g4⟩ := setValue_styleParts s 1 q.1 (Value.str q.2) r c
    exact ⟨h1.trans g1, h2.trans g2, h3.trans g3, h4.trans g4⟩

theorem setHeaders_widths (cfg : ExcelConfig) (s : Sheet) :
    (setHeaders cfg s).widths = s.widths := by
  unfold setHeaders
  exact foldl_widths_eq (fun sh p => sh.setValue 1 p.1 (Value.str p.2))
    (fun _ _ => rfl) cfg.headers s

/-! ### Lemmas about the style pass -/

theorem applyHeaderStyle_cells_ne (s : Sheet) (c : Nat) (r' c' : Nat)
    (h : ¬(r' = 1 ∧ c' = c)) : (applyHeaderStyle s c).cells r' c' = s.cells r' c' := by
  rw [applyHeaderStyle, setBorder_cells_ne _ _ _ _ _ _ h,
    setAlignment_cells_ne _ _ _ _ _ _ h, setFill_cells_ne _ _ _ _ _ _ h,
    setFont_cells_ne _ _ _ _ _ _ h]

theorem applyHeaderStyle_self (s : Sheet) (c : Nat) :
    ((applyHeaderStyle s c).cells 1 c).font = some headerFont ∧
    ((applyHeaderStyle s c).cells 1 c).fill = some headerFill ∧
    ((applyHeaderStyle s c).cells 1 c).alignment = some headerAlignment ∧
    ((applyHeaderStyle s c).cells 1 c).border = some thinBorder := by
  simp [applyHeaderStyle, Sheet.setFont, Sheet.setFill, Sheet.setAlignment,
    Sheet.setBorder]

theorem applyHeaderStyle_value (s : Sheet) (c : Nat) (r' c' : Nat) :
    ((applyHeaderStyle s c).cells r' c').value = (s.cells r' c').value := by
  rw [applyHeaderStyle, setBorder_value, setAlignment_value, setFill_value,
    setFont_value]

theorem applyHeaderStyle_widths (s : Sheet) (c : Nat) :
    (applyHeaderStyle s c).widths = s.widths := rfl

theorem headerFold_cells_ne_row (L : List Nat) (s : Sheet) (r c : Nat) (h : r ≠ 1) :
    (L.foldl applyHeaderStyle s).cells r c = s.cells r c :=
  foldl_cells_eq_of_mem _ r c L s
    (fun sh a _ => applyHeaderStyle_cells_ne sh a r c (fun hk => h hk.1))

theorem headerFold_cells_not_mem (L : List Nat) (s : Sheet) (c : Nat) (h : c ∉ L) :
    (L.foldl applyHeaderStyle s).cells 1 c = s.cells 1 c :=
  foldl_cells_eq_of_mem _ 1 c L s
    (fun sh a ha => applyHeaderStyle_cells_ne sh a 1 c (fun hk => h (hk.2 ▸ ha)))

theorem headerFold_styled :
    ∀ (L : List Nat) (s : Sheet) (c : Nat), c ∈ L →
      ((L.foldl applyHeaderStyle s).cells 1 c).font = some headerFont ∧
      ((L.foldl applyHeaderStyle s).cells 1 c).fill = some headerFill ∧
      ((L.foldl applyHeaderStyle s).cells 1 c).alignment = some headerAlignment ∧
      ((L.foldl applyHeaderStyle s).cells 1 c).border = some thinBorder := by
  intro L
  induction L with
  | nil => intro s c hc; exact absurd hc (List.not_mem_nil c)
  | cons a L ih =>
    intro s c hc
    by_cases hL : c ∈ L
    · exact ih (applyHeaderStyle s a) c hL
    · have hca : c = a := by
        rcases List.mem_cons.mp hc with h | h
        · exact h
        · exact absurd h hL
      subst hca
      have hpres : (L.foldl applyHeaderStyle (applyHeaderStyle s c)).cells 1 c =
          (applyHeaderStyle s c).cells 1 c :=
        headerFold_cells_not_mem L (applyHeaderStyle s c) c hL
      rw [List.foldl_cons, hpres]
      exact applyHeaderStyle_self s c

theorem headerFold_value (L : List Nat) (s : Sheet) (r c : Nat) :
    ((L.foldl applyHeaderStyle s).cells r c).value = (s.cells r c).value :=
  foldl_value_eq applyHeaderStyle (fun sh a r' c' => applyHeaderStyle_value sh a r' c')
    L s r c

theorem headerFold_widths (L : List Nat) (s : Sheet) :
    (L.foldl applyHeaderStyle s).widths = s.widths :=
  foldl_widths_eq applyHeaderStyle (fun _ _ => rfl) L s

theorem applyDataStyle_cells_ne (s : Sheet) (row col : Nat) (r' c' : Nat)
    (h : ¬(r' = row ∧ c' = col)) :
    (applyDataStyle s row col).cells r' c' = s.cells r' c' := by
  rw [applyDataStyle]
  by_cases h8 : col = 8
  · rw [if_pos h8, setAlignment_cells_ne _ _ _ _ _ _ h,
      setBorder_cells_ne _ _ _ _ _ _ h, setAlignment_cells_ne _ _ _ _ _ _ h]
  · rw [if_neg h8, setBorder_cells_ne _ _ _ _ _ _ h,
      setAlignment_cells_ne _ _ _ _ _ _ h]

theorem applyDataStyle_self (s : Sheet) (row col : Nat) :
    ((applyDataStyle s row col).cells row col).alignment = some dataAlignment ∧
    ((applyDataStyle s row col).cells row col).border = some thinBorder := by
  rw [applyDataStyle]
  by_cases h8 : col = 8
  · rw [if_pos h8]
    constructor
    · simp [Sheet.setAlignment, Sheet.setBorder, hashtagAlignment, dataAlignment]
    · simp [Sheet.setAlignment, Sheet.setBorder]
  · rw [if_neg h8]
    constructor
    · simp [Sheet.setAlignment, Sheet.setBorder]
    · simp [Sheet.setAlignment, Sheet.setBorder]

theorem applyDataStyle_value (s : Sheet) (row col : Nat) (r' c' : Nat) :
    ((applyDataStyle s row col).cells r' c').value = (s.cells r' c').value := by
  rw [applyDataStyle]
  by_cases h8 : col = 8
  · rw [if_pos h8, setAlignment_value, setBorder_value, setAlignment_value]
  · rw [if_neg h8, setBorder_value, setAlignment_value]

theorem applyDataStyle_widths (s : Sheet) (row col : Nat) :
    (applyDataStyle s row col).widths = s.widths := by
  rw [applyDataStyle]
  by_cases h8 : col = 8
  · rw [if_pos h8]; rfl
  · rw [if_neg h8]; rfl

theorem innerFold_cells_ne (L : List Nat) (row : Nat) (s : Sheet) (r c : Nat)
    (h : r ≠ row) :
    (L.foldl (fun sh2 col => applyDataStyle sh2 row col) s).cells r c = s.cells r c :=
  foldl_cells_eq_of_mem _ r c L s
    (fun sh a _ => applyDataStyle_cells_ne sh row a r c (fun hk => h hk.1))

theorem innerFold_cells_not_mem (L : List Nat) (row : Nat) (s : Sheet) (c : Nat)
    (h : c ∉ L) :
    (L.foldl (fun sh2 col => applyDataStyle sh2 row col) s).cells row c = s.cells row c :=
  foldl_cells_eq_of_mem _ row c L s
    (fun sh a ha => applyDataStyle_cells_ne sh row a row c (fun hk => h (hk.2 ▸ ha)))

theorem innerFold_styled :
    ∀ (L : List Nat) (row : Nat) (s : Sheet) (c : Nat), c ∈ L →
      ((L.foldl (fun sh2 col => applyDataStyle sh2 row col) s).cells row c).alignment =
          some dataAlignment ∧
      ((L.foldl (fun sh2 col => applyDataStyle sh2 row col) s).cells row c).border =
          some thinBorder := by
  intro L
  induction L with
  | nil => intro row s c hc; exact absurd hc (List.not_mem_nil c)
  | cons a L ih =>
    intro row s c hc
    by_cases hL : c ∈ L
    · exact ih row (applyDataStyle s row a) c hL
    · have hca : c = a := by
        rcases List.mem_cons.mp hc with h | h
        · exact h
        · exact absurd h hL
      subst hca
      have hpres := innerFold_cells_not_mem L row (applyDataStyle s row c) c hL
      rw [List.foldl_cons, hpres]
      exact applyDataStyle_self s row c

theorem innerFold_value (L : List Nat) (row : Nat) (s : Sheet) (r c : Nat) :
    ((L.foldl (fun sh2 col => applyDataStyle sh2 row col) s).cells r c).value =
      (s.cells r c).value :=
  foldl_value_eq _ (fun sh a r' c' => applyDataStyle_value sh row a r' c') L s r c

theorem innerFold_widths (L : List Nat) (row : Nat) (s : Sheet) :
    (L.foldl (fun sh2 col => applyDataStyle sh2 row col) s).widths = s.widths :=
  foldl_widths_eq _ (fun sh a => applyDataStyle_widths sh row a) L s

theorem outerFold_cells_ne (R : List Nat) (L : List Nat) (s : Sheet) (r c : Nat)
    (h : r ∉ R) :
    (R.foldl (fun sh row =>
      L.foldl (fun sh2 col => applyDataStyle sh2 row col) sh) s).cells r c =
      s.cells r c :=
  foldl_cells_eq_of_mem _ r c R s
    (fun sh a ha => innerFold_cells_ne L a sh r c (fun hk => h (hk ▸ ha)))

theorem outerFold_styled :
    ∀ (R : List Nat) (L : List Nat) (s : Sheet) (r c : Nat), r ∈ R → c ∈ L →
      ((R.foldl (fun sh row =>
          L.foldl (fun sh2 col => applyDataStyle sh2 row col) sh) s).cells r c).alignment =
        some dataAlignment ∧
      ((R.foldl (fun sh row =>
          L.foldl (fun sh2 col => applyDataStyle sh2 row col) sh) s).cells r c).border =
        some thinBorder := by
  intro R
  induction R with
  | nil => intro L s r c hr _; exact absurd hr (List.not_mem_nil r)
  | cons a R ih =>
    intro L s r c hr hc
    by_cases hR : r ∈ R
    · exact ih L (L.foldl (fun sh2 col => applyDataStyle sh2 a col) s) r c hR hc
    · have hra : r = a := by
        rcases List.mem_cons.mp hr with h | h
        · exact h
        · exact absurd h hR
      subst hra
      have hpres := outerFold_cells_ne R L
        (L.foldl (fun sh2 col => applyDataStyle sh2 r col) s) r c hR
      rw [List.foldl_cons, hpres]
      exact innerFold_styled L r s c hc

theorem outerFold_value (R : List Nat) (L : List Nat) (s : Sheet) (r c : Nat) :
    ((R.foldl (fun sh row =>
        L.foldl (fun sh2 col => applyDataStyle sh2 row col) sh) s).cells r c).value =
      (s.cells r c).value :=
  foldl_value_eq _ (fun sh a r' c' => innerFold_value L a sh r' c') R s r c

theorem outerFold_widths (R : List Nat) (L : List Nat) (s : Sheet) :
    (R.foldl (fun sh row =>
      L.foldl (fun sh2 col => applyDataStyle sh2 row col) sh) s).widths = s.widths :=
  foldl_widths_eq _ (fun sh a => innerFold_widths L a sh) R s

theorem applyStyles_eq (cfg : ExcelConfig) (s : Sheet) (n : Nat) :
    applyStyles cfg s n =
      (List.range' 2 n).foldl
        (fun sh row =>
          (List.range' 1 cfg.headers.length).foldl
            (fun sh2 col => applyDataStyle sh2 row col) sh)
        ((List.range' 1 cfg.headers.length).foldl applyHeaderStyle s) := rfl

theorem applyStyles_value (cfg : ExcelConfig) (s : Sheet) (n : Nat) (r c : Nat) :
    ((applyStyles cfg s n).cells r c).value = (s.cells r c).value := by
  rw [applyStyles_eq, outerFold_value, headerFold_value]

theorem applyStyles_widths (cfg : ExcelConfig) (s : Sheet) (n : Nat) :
    (applyStyles cfg s n).widths = s.widths := by
  rw [applyStyles_eq, outerFold_widths, headerFold_widths]

theorem one_not_mem_dataRows (n : Nat) : (1 : Nat) ∉ List.range' 2 n := by
  intro h
  have := (List.mem_range'_1.mp h).1
  omega

theorem applyStyles_header_cell (cfg : ExcelConfig) (s : Sheet) (n : Nat) (c : Nat)
    (h1 : 1 ≤ c) (h2 : c ≤ cfg.headers.length) :
    ((applyStyles cfg s n).cells 1 c).font = some headerFont ∧
    ((applyStyles cfg s n).cells 1 c).fill = some headerFill ∧
    ((applyStyles cfg s n).cells 1 c).alignment = some headerAlignment ∧
    ((applyStyles cfg s n).cells 1 c).border = some thinBorder := by
  have hc : c ∈ List.range' 1 cfg.headers.length := by
    rw [List.mem_range'_1]; omega
  rw [applyStyles_eq, outerFold_cells_ne _ _ _ 1 c (one_not_mem_dataRows n)]
  exact headerFold_styled _ s c hc

theorem applyStyles_data_cell (cfg : ExcelConfig) (s : Sheet) (n : Nat) (r c : Nat)
    (hr1 : 2 ≤ r) (hr2 : r ≤ n + 1) (hc1 : 1 ≤ c) (hc2 : c ≤ cfg.headers.length) :
    ((applyStyles cfg s n).cells r c).alignment = some dataAlignment ∧
    ((applyStyles cfg s n).cells r c).border = some thinBorder := by
  have hr : r ∈ List.range' 2 n := by
    rw [List.mem_range'_1]; omega
  have hc : c ∈ List.range' 1 cfg.headers.length := by
    rw [List.mem_range'_1]; omega
  rw [applyStyles_eq]
  exact outerFold_styled _ _ _ r c hr hc

/-! ### Lemmas about the column-width pass -/

theorem listMinNat_le_of_mem : ∀ (l : List Nat) (x : Nat), x ∈ l → listMinNat l ≤ x := by
  intro l
  induction l with
  | nil => intro x hx; exact absurd hx (List.not_mem_nil x)
  | cons a l ih =>
    intro x hx
    cases l with
    | nil =>
      have : x = a := by simpa using hx
      subst this; exact le_rfl
    | cons b ys =>
      rcases List.mem_cons.mp hx with h | h
      · subst h
        exact min_le_left _ _
      · calc listMinNat (a :: b :: ys) = min a (listMinNat (b :: ys)) := rfl
          _ ≤ listMinNat (b :: ys) := min_le_right _ _
          _ ≤ x := ih x h

theorem le_listMaxNat_of_mem : ∀ (l : List Nat) (x : Nat), x ∈ l → x ≤ listMaxNat l := by
  intro l
  induction l with
  | nil => intro x hx; exact absurd hx (List.not_mem_nil x)
  | cons a l ih =>
    intro x hx
    rcases List.mem_cons.mp hx with h | h
    · subst h; exact le_max_left _ _
    · calc x ≤ listMaxNat l := ih x h
        _ ≤ max a (listMaxNat l) := le_max_right _ _

theorem touched_col_mem_range (s : Sheet) (r c : Nat) (h : (r, c) ∈ s.touched) :
    c ∈ List.range' s.minCol (s.maxCol + 1 - s.minCol) := by
  have hc : c ∈ s.touched.map Prod.snd := List.mem_map_of_mem Prod.snd h
  have h1 : s.minCol ≤ c := listMinNat_le_of_mem _ c hc
  have h2 : c ≤ s.maxCol := le_listMaxNat_of_mem _ c hc
  rw [List.mem_range'_1]
  omega

theorem widthFold_cells (g : Nat → ℚ) :
    ∀ (L : List Nat) (s0 : Sheet),
      (L.foldl (fun sh c => sh.setWidth c (g c)) s0).cells = s0.cells := by
  intro L
  induction L with
  | nil => intro s0; rfl
  | cons a L ih => intro s0; exact ih (s0.setWidth a (g a))

theorem widthFold_touched (g : Nat → ℚ) :
    ∀ (L : List Nat) (s0 : Sheet),
      (L.foldl (fun sh c => sh.setWidth c (g c)) s0).touched = s0.touched := by
  intro L
  induction L with
  | nil => intro s0; rfl
  | cons a L ih => intro s0; exact ih (s0.setWidth a (g a))

theorem widthFold_not_mem (g : Nat → ℚ) :
    ∀ (L : List Nat) (s0 : Sheet) (c : Nat), c ∉ L →
      (L.foldl (fun sh c => sh.setWidth c (g c)) s0).widths c = s0.widths c := by
  intro L
  induction L with
  | nil => intro s0 c _; rfl
  | cons a L ih =>
    intro s0 c hc
    have hne : c ≠ a := fun h => hc (h ▸ List.mem_cons_self a L)
    have hL : c ∉ L := fun h => hc (List.mem_cons_of_mem a h)
    calc (L.foldl (fun sh c => sh.setWidth c (g c)) (s0.setWidth a (g a))).widths c
        = (s0.setWidth a (g a)).widths c := ih (s0.setWidth a (g a)) c hL
      _ = s0.widths c := by rw [setWidth_widths, if_neg hne]

theorem widthFold_mem (g : Nat → ℚ) :
    ∀ (L : List Nat) (s0 : Sheet) (c : Nat), c ∈ L →
      (L.foldl (fun sh c => sh.setWidth c (g c)) s0).widths c = some (g c) := by
  intro L
  induction L with
  | nil => intro s0 c hc; exact absurd hc (List.not_mem_nil c)
  | cons a L ih =>
    intro s0 c hc
    by_cases hL : c ∈ L
    · exact ih (s0.setWidth a (g a)) c hL
    · have hca : c = a := by
        rcases List.mem_cons.mp hc with h | h
        · exact h
        · exact absurd h hL
      subst hca
      calc (L.foldl (fun sh c => sh.setWidth c (g c)) (s0.setWidth c (g c))).widths c
          = (s0.setWidth c (g c)).widths c := widthFold_not_mem g L _ c hL
        _ = some (g c) := by rw [setWidth_widths, if_pos rfl]

theorem adjust_cells (s : Sheet) : (adjustColumnWidths s).cells = s.cells :=
  widthFold_cells _ _ s

theorem adjust_touched (s : Sheet) : (adjustColumnWidths s).touched = s.touched :=
  widthFold_touched _ _ s

theorem adjust_widths_touched (s : Sheet) (r c : Nat) (h : (r, c) ∈ s.touched) :
    (adjustColumnWidths s).widths c = some (clampWidth (maxLenOf (colCells s c))) :=
  widthFold_mem _ _ s c (touched_col_mem_range s r c h)

theorem adjust_widths_cases (s : Sheet) (c : Nat) :
    (adjustColumnWidths s).widths c = s.widths c ∨
      ∃ m : Nat, (adjustColumnWidths s).widths c = some (clampWidth m) := by
  by_cases hc : c ∈ List.range' s.minCol (s.maxCol + 1 - s.minCol)
  · exact Or.inr ⟨maxLenOf (colCells s c), widthFold_mem _ _ s c hc⟩
  · exact Or.inl (widthFold_not_mem _ _ s c hc)

theorem maxLenOf_foldl_aux :
    ∀ (vs : List Value) (m : Nat),
      vs.foldl (fun m v => match tryLen v with
        | some n => if n > m then n else m
        | Option.none => m) m = max m (listMaxNat (vs.filterMap tryLen)) := by
  intro vs
  induction vs with
  | nil => intro m; simp [listMaxNat]
  | cons v vs ih =>
    intro m
    cases hv : tryLen v with
    | none =>
      simp only [List.foldl_cons, hv, List.filterMap_cons, ih]
    | some n =>
      have hstep : (if n > m then n else m) = max m n := by
        by_cases h : n > m
        · rw [if_pos h]; omega
        · rw [if_neg h]; omega
      simp only [List.foldl_cons, hv, List.filterMap_cons, ih, hstep]
      show max (max m n) (listMaxNat (vs.filterMap tryLen)) =
        max m (listMaxNat (n :: vs.filterMap tryLen))
      have : listMaxNat (n :: vs.filterMap tryLen) =
          max n (listMaxNat (vs.filterMap tryLen)) := rfl
      rw [this, Nat.max_assoc]

theorem maxLenOf_eq_listMax (vs : List Value) :
    maxLenOf vs = listMaxNat (vs.filterMap tryLen) := by
  rw [maxLenOf, maxLenOf_foldl_aux]
  omega

theorem maxLenOf_bad_cons (vs : List Value) :
    maxLenOf (Value.bad :: vs) = maxLenOf vs := rfl

theorem clampWidth_bounds (m : Nat) : 10 ≤ clampWidth m ∧ clampWidth m ≤ 50 := by
  unfold clampWidth ratMax ratMin adjustedWidth
  split_ifs <;> constructor <;> linarith

theorem clampWidth_strict_mono (m₁ m₂ : Nat)
    (h₁ : 10 < adjustedWidth m₁) (h₂ : adjustedWidth m₁ < 50)
    (h₃ : 10 < adjustedWidth m₂) (h₄ : adjustedWidth m₂ < 50)
    (h : m₁ < m₂) : clampWidth m₁ < clampWidth m₂ := by
  have e₁ : clampWidth m₁ = adjustedWidth m₁ := by
    rw [clampWidth, ratMin, if_neg (not_le.mpr h₂), ratMax, if_pos h₁.le]
  have e₂ : clampWidth m₂ = adjustedWidth m₂ := by
    rw [clampWidth, ratMin, if_neg (not_le.mpr h₄), ratMax, if_pos h₃.le]
  rw [e₁, e₂]
  unfold adjustedWidth
  have hq : (m₁ : ℚ) < (m₂ : ℚ) := by exact_mod_cast h
  nlinarith

theorem preSheet_widths (cfg : ExcelConfig) (rs : List ProcessResult) (c : Nat) :
    (addData (setHeaders cfg Sheet.empty) rs).widths c = Option.none := by
  rw [addData, addDataFrom_widths, setHeaders_widths]
  rfl

theorem buildSheet_value (cfg : ExcelConfig) (rs : List ProcessResult) (r c : Nat) :
    ((buildSheet cfg rs).cells r c).value =
      ((addData (setHeaders cfg Sheet.empty) rs).cells r c).value := by
  rw [buildSheet, applyStyles_value, adjust_cells]

theorem buildSheet_widths (cfg : ExcelConfig) (rs : List ProcessResult) :
    (buildSheet cfg rs).widths =
      (adjustColumnWidths (addData (setHeaders cfg Sheet.empty) rs)).widths := by
  rw [buildSheet, applyStyles_widths]

theorem headersFold_touched_mem :
    ∀ (L : List (Nat × String)) (s : Sheet) (p : Nat × String), p ∈ L →
      (1, p.1) ∈ (L.foldl (fun sh q => sh.setValue 1 q.1 (Value.str q.2)) s).touched := by
  intro L
  induction L with
  | nil => intro s p hp; exact absurd hp (List.not_mem_nil _)
  | cons q L ih =>
    intro s p hp
    rcases List.mem_cons.mp hp with heq | hmem
    · subst heq
      exact foldl_touched_mono _ (fun sh a x hx => List.mem_cons_of_mem _ hx) L
        (s.setValue 1 p.1 (Value.str p.2)) (1, p.1) (List.mem_cons_self _ _)
    · exact ih (s.setValue 1 q.1 (Value.str q.2)) p hmem

/-! ### Lemmas about the filesystem model -/

theorem fsLookup_fsErase_self :
    ∀ (fs : List (FilePath × Content)) (p : FilePath),
      fsLookup (fsErase fs p) p = Option.none := by
  intro fs
  induction fs with
  | nil => intro p; rfl
  | cons kv fs ih =>
    intro p
    by_cases h : kv.1 = p
    · show fsLookup (if kv.1 = p then fsErase fs p else (kv.1, kv.2) :: fsErase fs p) p =
        Option.none
      rw [if_pos h]; exact ih p
    · show fsLookup (if kv.1 = p then fsErase fs p else (kv.1, kv.2) :: fsErase fs p) p =
        Option.none
      rw [if_neg h]
      show (if kv.1 = p then some kv.2 else fsLookup (fsErase fs p) p) = Option.none
      rw [if_neg h]; exact ih p

theorem fsLookup_fsErase_ne :
    ∀ (fs : List (FilePath × Content)) (p q : FilePath), q ≠ p →
      fsLookup (fsErase fs p) q = fsLookup fs q := by
  intro fs
  induction fs with
  | nil => intro p q _; rfl
  | cons kv fs ih =>
    intro p q hq
    show fsLookup (if kv.1 = p then fsErase fs p else (kv.1, kv.2) :: fsErase fs p) q =
      (if kv.1 = q then some kv.2 else fsLookup fs q)
    by_cases h : kv.1 = p
    · rw [if_pos h, ih p q hq, if_neg (fun hk => hq (hk.symm.trans h))]
    · rw [if_neg h]
      show (if kv.1 = q then some kv.2 else fsLookup (fsErase fs p) q) =
        (if kv.1 = q then some kv.2 else fsLookup fs q)
      by_cases h2 : kv.1 = q
      · rw [if_pos h2, if_pos h2]
      · rw [if_neg h2, if_neg h2, ih p q hq]

theorem fsErase_of_lookup_none :
    ∀ (fs : List (FilePath × Content)) (p : FilePath),
      fsLookup fs p = Option.none → fsErase fs p = fs := by
  intro fs
  induction fs with
  | nil => intro p _; rfl
  | cons kv fs ih =>
    intro p hp
    have h1 : ¬(kv.1 = p) := by
      intro h
      have : fsLookup (kv :: fs) p = some kv.2 := by
        show (if kv.1 = p then some kv.2 else fsLookup fs p) = some kv.2
        rw [if_pos h]
      rw [hp] at this; exact Option.noConfusion this
    have h2 : fsLookup fs p = Option.none := by
      have : fsLookup (kv :: fs) p = fsLookup fs p := by
        show (if kv.1 = p then some kv.2 else fsLookup fs p) = fsLookup fs p
        rw [if_neg h1]
      rw [← this, hp]
    show (if kv.1 = p then fsErase fs p else (kv.1, kv.2) :: fsErase fs p) = kv :: fs
    rw [if_neg h1, ih p h2]

theorem fsErase_idem :
    ∀ (fs : List (FilePath × Content)) (p : FilePath),
      fsErase (fsErase fs p) p = fsErase fs p := by
  intro fs p
  exact fsErase_of_lookup_none (fsErase fs p) p (fsLookup_fsErase_self fs p)

theorem fsLookup_fsInsert_self (fs : List (FilePath × Content)) (p : FilePath)
    (c : Content) : fsLookup (fsInsert fs p c) p = some c := by
  show (if p = p then some c else fsLookup (fsErase fs p) p) = some c
  rw [if_pos rfl]

theorem fsLookup_fsInsert_ne (fs : List (FilePath × Content)) (p q : FilePath)
    (c : Content) (h : q ≠ p) : fsLookup (fsInsert fs p c) q = fsLookup fs q := by
  show (if p = q then some c else fsLookup (fsErase fs p) q) = fsLookup fs q
  rw [if_neg (fun hk => h hk.symm), fsLookup_fsErase_ne fs p q h]

theorem fsErase_fsInsert (fs : List (FilePath × Content)) (p : FilePath)
    (c : Content) : fsErase (fsInsert fs p c) p = fsErase fs p := by
  show fsErase ((p, c) :: fsErase fs p) p = fsErase fs p
  show (if p = p then fsErase (fsErase fs p) p else _) = fsErase fs p
  rw [if_pos rfl, fsErase_idem]

theorem backupPath_ne (p : FilePath) (t : Timestamp) : backupPath p t ≠ p := by
  intro h
  have hs : p.stem ++ "_" ++ timestampStr t ++ "_backup" = p.stem :=
    congrArg FilePath.stem h
  have hl := congrArg String.length hs
  rw [String.length_append, String.length_append, String.length_append] at hl
  have h7 : "_backup".length = 7 := by decide
  have h1 : "_".length = 1 := by decide
  rw [h7, h1] at hl
  omega

/-! ### Claim theorems -/

/-- C1: For every config and record list, the export pipeline writes record
`i`'s nine fields at row `i+2` (0-based index; row 1 is the header row) into
the nine fixed columns A..I in the order stylist-name, coupon-name, comment,
title, sex, length, menu, hashtag, image-name.  The binding is positional:
the config is universally quantified and the written values do not depend on
its labels. -/
theorem C1_data_row_fixed_columns (cfg : ExcelConfig) (results : List ProcessResult)
    (i : Nat) (h : i < results.length) :
    rowMatches (buildSheet cfg results) (i + 2) (results.get ⟨i, h⟩) := by
  have hm := addDataFrom_matches results (setHeaders cfg Sheet.empty) 2 i h
  have hswap : i + 2 = 2 + i := Nat.add_comm i 2
  simp only [rowMatches] at hm ⊢
  simp only [buildSheet_value, addData, hswap]
  exact hm

/-- C1 witness: one concrete record lands in row 2. -/
theorem C1_data_row_fixed_columns_witness :
    rowMatches (buildSheet sampleConfig [sampleRecord]) 2 sampleRecord :=
  C1_data_row_fixed_columns sampleConfig [sampleRecord] 0 (by decide)

/-- C2: After `_set_headers`, every (column, label) pair of the config (with
its unique positions, per the config invariant) appears as the value of the
row-1 cell at that column; every other row-1 cell still has no value; and no
cell of the sheet has any styling. -/
theorem C2_header_writing (cfg : ExcelConfig) (h : (cfg.headers.map Prod.fst).Nodup) :
    (∀ p ∈ cfg.headers,
      ((setHeaders cfg Sheet.empty).cells 1 p.1).value = Value.str p.2) ∧
    (∀ c, c ∉ cfg.headers.map Prod.fst →
      ((setHeaders cfg Sheet.empty).cells 1 c).value = Value.null) ∧
    (∀ r c, ((setHeaders cfg Sheet.empty).cells r c).font = Option.none ∧
      ((setHeaders cfg Sheet.empty).cells r c).fill = Option.none ∧
      ((setHeaders cfg Sheet.empty).cells r c).alignment = Option.none ∧
      ((setHeaders cfg Sheet.empty).cells r c).border = Option.none) := by
  refine ⟨?_, ?_, ?_⟩
  · intro p hp
    exact headersFold_value_mem cfg.headers Sheet.empty p.1 p.2 h hp
  · intro c hc
    rw [setHeaders, headersFold_cells_not_mem cfg.headers Sheet.empty c hc]
    rfl
  · intro r c
    have := headersFold_styleParts cfg.headers Sheet.empty r c
    exact this

/-- C2 witness: the nine-column sample config. -/
theorem C2_header_writing_witness :
    (∀ p ∈ sampleConfig.headers,
      ((setHeaders sampleConfig Sheet.empty).cells 1 p.1).value = Value.str p.2) ∧
    (∀ c, c ∉ sampleConfig.headers.map Prod.fst →
      ((setHeaders sampleConfig Sheet.empty).cells 1 c).value = Value.null) ∧
    (∀ r c, ((setHeaders sampleConfig Sheet.empty).cells r c).font = Option.none ∧
      ((setHeaders sampleConfig Sheet.empty).cells r c).fill = Option.none ∧
      ((setHeaders sampleConfig Sheet.empty).cells r c).alignment = Option.none ∧
      ((setHeaders sampleConfig Sheet.empty).cells r c).border = Option.none) :=
  C2_header_writing sampleConfig (by decide)

/-- C3: For every column containing at least one (touched) cell, the
width-adjustment pass sets that column's display width to
`clamp((maxLength + 2) * 1.1, 10, 50)` — that is exactly `clampWidth`
applied to the column's `maxLenOf` — where `maxLength` is the maximum
stringified length over the column's cells (headers included, since the scan
covers every row of the sheet's used range), and a cell whose value cannot
be stringified (`Value.bad`) is skipped, contributing nothing to the
maximum, instead of raising. -/
theorem C3_column_width_formula (s : Sheet) (r c : Nat) (h : (r, c) ∈ s.touched) :
    (adjustColumnWidths s).widths c = some (clampWidth (maxLenOf (colCells s c))) ∧
    maxLenOf (colCells s c) = listMaxNat ((colCells s c).filterMap tryLen) ∧
    (∀ vs, maxLenOf (Value.bad :: vs) = maxLenOf vs) :=
  ⟨adjust_widths_touched s r c h, maxLenOf_eq_listMax _, fun _ => rfl⟩

/-- C3 witness: a sheet with a string cell and an unstringifiable cell in
column 1. -/
theorem C3_column_width_formula_witness :
    (adjustColumnWidths sampleSheet).widths 1 =
      some (clampWidth (maxLenOf (colCells sampleSheet 1))) ∧
    maxLenOf (colCells sampleSheet 1) =
      listMaxNat ((colCells sampleSheet 1).filterMap tryLen) ∧
    (∀ vs, maxLenOf (Value.bad :: vs) = maxLenOf vs) :=
  C3_column_width_formula sampleSheet 2 1 (by decide)

/-- C4: Every column width assigned on an exported sheet lies in the closed
interval [10, 50], and the clamped width is strictly monotone in the
column's maximum stringified length whenever both unclamped widths lie
strictly inside (10, 50). -/
theorem C4_width_bounds_and_monotonicity (cfg : ExcelConfig)
    (results : List ProcessResult) :
    (∀ c w, (buildSheet cfg results).widths c = some w → 10 ≤ w ∧ w ≤ 50) ∧
    (∀ m₁ m₂ : Nat, 10 < adjustedWidth m₁ → adjustedWidth m₁ < 50 →
      10 < adjustedWidth m₂ → adjustedWidth m₂ < 50 → m₁ < m₂ →
      clampWidth m₁ < clampWidth m₂) := by
  constructor
  · intro c w hw
    rw [buildSheet_widths] at hw
    rcases adjust_widths_cases (addData (setHeaders cfg Sheet.empty) results) c with
      hcase | ⟨m, hm⟩
    · rw [hcase, preSheet_widths] at hw
      exact Option.noConfusion hw
    · rw [hm] at hw
      have hwm : w = clampWidth m := (Option.some.inj hw).symm
      rw [hwm]
      exact clampWidth_bounds m
  · intro m₁ m₂ h₁ h₂ h₃ h₄ h
    exact clampWidth_strict_mono m₁ m₂ h₁ h₂ h₃ h₄ h

/-- C4 witness: column 1 of the sample export carries a width within bounds,
and lengths 13 < 20 produce strictly increasing widths. -/
theorem C4_width_bounds_and_monotonicity_witness :
    (10 ≤ clampWidth 7 ∧ clampWidth 7 ≤ 50) ∧ clampWidth 13 < clampWidth 20 := by
  have h := C4_width_bounds_and_monotonicity sampleConfig [sampleRecord]
  constructor
  · have hmax : maxLenOf (colCells
        (addData (setHeaders sampleConfig Sheet.empty) [sampleRecord]) 1) = 7 := by
      decide
    have heq : (buildSheet sampleConfig [sampleRecord]).widths 1 =
        some (clampWidth 7) := by
      rw [buildSheet_widths,
        adjust_widths_touched _ 1 1 (by decide), hmax]
    exact h.1 1 (clampWidth 7) heq
  · refine h.2 13 20 ?_ ?_ ?_ ?_ (by omega) <;> norm_num [adjustedWidth]

/-- C5: Every invocation of `get_binary_data` removes its temporary file
before returning: after the call the temporary path is absent from the
filesystem on the success path and on every failure path, and when the
temporary path was fresh the filesystem is exactly what it was before the
call, whether the call returns bytes or raises `ExcelExportError`. -/
theorem C5_tmp_file_cleanup (cfg : ExcelConfig) (results : List ProcessResult)
    (w : TmpWorld) :
    fsLookup (getBinaryData cfg results w).2 w.tmpPath = Option.none ∧
    (fsLookup w.fs w.tmpPath = Option.none → (getBinaryData cfg results w).2 = w.fs) := by
  have h2 : ∀ fs : List (FilePath × Content),
      fsErase (fsInsert fs w.tmpPath (Content.wb (buildSheet cfg results)))
        w.tmpPath = fsErase fs w.tmpPath := fun fs => fsErase_fsInsert fs w.tmpPath _
  have h1 : ∀ fs : List (FilePath × Content),
      fsErase (fsInsert fs w.tmpPath (Content.raw 0)) w.tmpPath = fsErase fs w.tmpPath :=
    fun fs => fsErase_fsInsert fs w.tmpPath _
  constructor
  · unfold getBinaryData
    by_cases hs : w.saveFails <;> by_cases hr : w.readFails <;>
      simp only [hs, hr, if_true, if_false, Bool.false_eq_true, if_neg, ite_false,
        ite_true] <;>
      simp only [h1, h2] <;>
      exact fsLookup_fsErase_self w.fs w.tmpPath
  · intro hnone
    unfold getBinaryData
    by_cases hs : w.saveFails <;> by_cases hr : w.readFails <;>
      simp only [hs, hr, if_true, if_false, Bool.false_eq_true, if_neg, ite_false,
        ite_true] <;>
      simp only [h1, h2] <;>
      exact fsErase_of_lookup_none w.fs w.tmpPath hnone

/-- C5 witness: a concrete byte export leaves the filesystem untouched. -/
theorem C5_tmp_file_cleanup_witness :
    fsLookup (getBinaryData sampleConfig [sampleRecord] sampleTmpWorld).2
      sampleTmpWorld.tmpPath = Option.none ∧
    (getBinaryData sampleConfig [sampleRecord] sampleTmpWorld).2 = sampleTmpWorld.fs := by
  have h := C5_tmp_file_cleanup sampleConfig [sampleRecord] sampleTmpWorld
  exact ⟨h.1, h.2 rfl⟩

/-- C6: Whenever directory creation, backup copy (relevant only when a file
exists at the target), or workbook save fails, `export` raises an
`ExcelExportError` that wraps the underlying failure as its cause
(`firstCause` names the first operation that failed) and carries the target
output path for diagnostics.  No other error kind can escape: the result
type of the model is `Except ExcelExportError FilePath`. -/
theorem C6_export_error_wrapping (cfg : ExcelConfig) (results : List ProcessResult)
    (p : FilePath) (t : Timestamp) (w : World)
    (h : w.mkdirFails = true ∨
      (w.copyFails = true ∧ (fsLookup w.fs p).isSome = true) ∨ w.saveFails = true) :
    ∃ e : ExcelExportError, (exportFn cfg results p t w).1 = Except.error e ∧
      e.output_path = some p.render ∧
      e.cause = some (firstCause w (fsLookup w.fs p).isSome) := by
  by_cases hm : w.mkdirFails
  · refine ⟨wrapError "Excel出力処理でエラーが発生しました" (some p.render)
      Cause.mkdirFailed, ?_, rfl, ?_⟩
    · simp [exportFn, hm]
    · simp [wrapError, firstCause, hm]
  · cases hfs : fsLookup w.fs p with
    | some orig =>
      by_cases hc : w.copyFails
      · refine ⟨wrapError "Excel出力処理でエラーが発生しました" (some p.render)
          Cause.copyFailed, ?_, rfl, ?_⟩
        · simp [exportFn, hm, hc, hfs]
        · simp [wrapError, firstCause, hm, hc, hfs]
      · have hs : w.saveFails = true := by
          rcases h with h | ⟨h, _⟩ | h
          · exact absurd h hm
          · exact absurd h hc
          · exact h
        refine ⟨wrapError "Excelファイルの保存に失敗しました" (some p.render)
          Cause.saveFailed, ?_, rfl, ?_⟩
        · simp [exportFn, hm, hc, hs, hfs]
        · simp [wrapError, firstCause, hm, hc, hfs]
    | none =>
      have hs : w.saveFails = true := by
        rcases h with h | ⟨_, h⟩ | h
        · exact absurd h hm
        · rw [hfs] at h; exact Bool.noConfusion h
        · exact h
      refine ⟨wrapError "Excelファイルの保存に失敗しました" (some p.render)
        Cause.saveFailed, ?_, rfl, ?_⟩
      · simp [exportFn, hm, hs, hfs]
      · simp [wrapError, firstCause, hm, hfs]

/-- C6 witness: a failing mkdir yields a wrapped error carrying the path. -/
theorem C6_export_error_wrapping_witness :
    ∃ e : ExcelExportError,
      (exportFn sampleConfig [sampleRecord] samplePath sampleTime
        sampleWorldMkdirFail).1 = Except.error e ∧
      e.output_path = some samplePath.render ∧
      e.cause = some (firstCause sampleWorldMkdirFail
        (fsLookup sampleWorldMkdirFail.fs samplePath).isSome) :=
  C6_export_error_wrapping sampleConfig [sampleRecord] samplePath sampleTime
    sampleWorldMkdirFail (Or.inl rfl)

/-- C7: When a file exists at the output path, `export` copies it — before
overwriting — to the sibling path `<stem>_<YYYYMMDD_HHMMSS>_backup<suffix>`
(the first conjunct records the naming pattern of `backupPath`, with the
timestamp rendered by `timestampStr`), and after a successful export the
backup's contents equal the pre-export original byte-for-byte; when no file
exists at the output path, no backup is created (the contents of every
backup-shaped path are unchanged by the call). -/
theorem C7_backup_on_overwrite (cfg : ExcelConfig) (results : List ProcessResult)
    (p : FilePath) (t : Timestamp) (w : World) :
    (backupPath p t =
      FilePath.mk p.parent (p.stem ++ "_" ++ timestampStr t ++ "_backup") p.suffix) ∧
    (∀ orig, fsLookup w.fs p = some orig →
      ∀ q, (exportFn cfg results p t w).1 = Except.ok q →
        fsLookup (exportFn cfg results p t w).2 (backupPath p t) = some orig) ∧
    (fsLookup w.fs p = Option.none →
      ∀ t', fsLookup (exportFn cfg results p t w).2 (backupPath p t') =
        fsLookup w.fs (backupPath p t')) := by
  refine ⟨rfl, ?_, ?_⟩
  · intro orig horig q hok
    by_cases hm : w.mkdirFails
    · rw [exportFn] at hok
      simp [hm] at hok
    · by_cases hc : w.copyFails
      · rw [exportFn] at hok
        simp [hm, hc, horig] at hok
      · by_cases hs : w.saveFails
        · rw [exportFn] at hok
          simp [hm, hc, hs, horig] at hok
        · have h2 : (exportFn cfg results p t w).2 =
              fsInsert (fsInsert w.fs (backupPath p t) orig) p
                (Content.wb (buildSheet cfg results)) := by
            rw [exportFn]
            simp [hm, hc, hs, horig]
          rw [h2, fsLookup_fsInsert_ne _ _ _ _ (backupPath_ne p t),
            fsLookup_fsInsert_self]
  · intro hnone t'
    by_cases hm : w.mkdirFails
    · rw [exportFn]
      simp [hm]
    · by_cases hs : w.saveFails
      · rw [exportFn]
        simp [hm, hs, hnone]
      · have h2 : (exportFn cfg results p t w).2 =
            fsInsert w.fs p (Content.wb (buildSheet cfg results)) := by
          rw [exportFn]
          simp [hm, hs, hnone]
        rw [h2, fsLookup_fsInsert_ne _ _ _ _ (backupPath_ne p t')]

/-- C7 witness: an export over an existing file preserves its old contents
at the backup path. -/
theorem C7_backup_on_overwrite_witness :
    fsLookup (exportFn sampleConfig [sampleRecord] samplePath sampleTime
        sampleWorldExisting).2 (backupPath samplePath sampleTime) =
      some (Content.raw 7) :=
  (C7_backup_on_overwrite sampleConfig [sampleRecord] samplePath sampleTime
    sampleWorldExisting).2.1 (Content.raw 7) rfl samplePath rfl

/-- C9: The construction pipeline is deterministic in (config, records):
two byte-export invocations over any two environments (different temporary
paths, different starting filesystems) return the same result, namely the
workbook built by `buildSheet`, and two file-export invocations (different
wall-clock instants, different worlds) leave the identical workbook content
at the output path.  Time-dependent artifacts (the backup filename) are the
only difference between runs, as they live outside the returned content. -/
theorem C9_deterministic_output (cfg : ExcelConfig) (results : List ProcessResult)
    (w₁ w₂ : TmpWorld) (v₁ v₂ : World) (p : FilePath) (t₁ t₂ : Timestamp)
    (h1 : w₁.saveFails = false) (h2 : w₁.readFails = false)
    (h3 : w₂.saveFails = false) (h4 : w₂.readFails = false)
    (h5 : v₁.mkdirFails = false) (h6 : v₁.copyFails = false)
    (h7 : v₁.saveFails = false)
    (h8 : v₂.mkdirFails = false) (h9 : v₂.copyFails = false)
    (h10 : v₂.saveFails = false) :
    (getBinaryData cfg results w₁).1 = (getBinaryData cfg results w₂).1 ∧
    (getBinaryData cfg results w₁).1 =
      Except.ok (Content.wb (buildSheet cfg results)) ∧
    fsLookup (exportFn cfg results p t₁ v₁).2 p =
      some (Content.wb (buildSheet cfg results)) ∧
    fsLookup (exportFn cfg results p t₂ v₂).2 p =
      some (Content.wb (buildSheet cfg results)) := by
  have hbin : ∀ w : TmpWorld, w.saveFails = false → w.readFails = false →
      (getBinaryData cfg results w).1 =
        Except.ok (Content.wb (buildSheet cfg results)) := by
    intro w hs hr
    rw [getBinaryData]
    simp [hs, hr]
  have hexp : ∀ (v : World) (t : Timestamp), v.mkdirFails = false →
      v.copyFails = false → v.saveFails = false →
      fsLookup (exportFn cfg results p t v).2 p =
        some (Content.wb (buildSheet cfg results)) := by
    intro v t hm hc hs
    cases hfs : fsLookup v.fs p with
    | some orig =>
      have h2 : (exportFn cfg results p t v).2 =
          fsInsert (fsInsert v.fs (backupPath p t) orig) p
            (Content.wb (buildSheet cfg results)) := by
        rw [exportFn]
        simp [hm, hc, hs, hfs]
      rw [h2, fsLookup_fsInsert_self]
    | none =>
      have h2 : (exportFn cfg results p t v).2 =
          fsInsert v.fs p (Content.wb (buildSheet cfg results)) := by
        rw [exportFn]
        simp [hm, hs, hfs]
      rw [h2, fsLookup_fsInsert_self]
  exact ⟨(hbin w₁ h1 h2).trans (hbin w₂ h3 h4).symm, hbin w₁ h1 h2,
    hexp v₁ t₁ h5 h6 h7, hexp v₂ t₂ h8 h9 h10⟩

/-- C9 witness: two concrete environments with different temporary paths and
filesystems yield the same bytes and the same persisted content. -/
theorem C9_deterministic_output_witness :
    (getBinaryData sampleConfig [sampleRecord] sampleTmpWorld).1 =
      (getBinaryData sampleConfig [sampleRecord] sampleTmpWorld2).1 ∧
    (getBinaryData sampleConfig [sampleRecord] sampleTmpWorld).1 =
      Except.ok (Content.wb (buildSheet sampleConfig [sampleRecord])) ∧
    fsLookup (exportFn sampleConfig [sampleRecord] samplePath sampleTime
        sampleWorldExisting).2 samplePath =
      some (Content.wb (buildSheet sampleConfig [sampleRecord])) ∧
    fsLookup (exportFn sampleConfig [sampleRecord] samplePath sampleTime
        sampleWorld).2 samplePath =
      some (Content.wb (buildSheet sampleConfig [sampleRecord])) :=
  C9_deterministic_output sampleConfig [sampleRecord] sampleTmpWorld sampleTmpWorld2
    sampleWorldExisting sampleWorld samplePath sampleTime sampleTime
    rfl rfl rfl rfl rfl rfl rfl rfl rfl rfl

/-- C8: After the style pass, every header cell (row 1, columns 1 through
`len(config.headers)`) has the bold white 12pt font, the solid #4472C4
fill, centered-and-middle wrapped alignment, and the thin border on all
four sides; every data cell (rows 2 through `1 + recordCount`, same column
range) has middle-vertical wrapped alignment and the thin border; and the
column-8 special case re-applies an alignment literally equal to the
general data alignment, so its final style is identical to every other
data column's. -/
theorem C8_style_application (cfg : ExcelConfig) (results : List ProcessResult) :
    (∀ c, 1 ≤ c → c ≤ cfg.headers.length →
      ((buildSheet cfg results).cells 1 c).font = some headerFont ∧
      ((buildSheet cfg results).cells 1 c).fill = some headerFill ∧
      ((buildSheet cfg results).cells 1 c).alignment = some headerAlignment ∧
      ((buildSheet cfg results).cells 1 c).border = some thinBorder) ∧
    (∀ r c, 2 ≤ r → r ≤ results.length + 1 → 1 ≤ c → c ≤ cfg.headers.length →
      ((buildSheet cfg results).cells r c).alignment = some dataAlignment ∧
      ((buildSheet cfg results).cells r c).border = some thinBorder) ∧
    hashtagAlignment = dataAlignment := by
  refine ⟨?_, ?_, rfl⟩
  · intro c h1 h2
    rw [buildSheet]
    exact applyStyles_header_cell cfg _ results.length c h1 h2
  · intro r c hr1 hr2 hc1 hc2
    rw [buildSheet]
    exact applyStyles_data_cell cfg _ results.length r c hr1 hr2 hc1 hc2

/-- C8 witness: the sample export's header cell (1,1), data cell (2,8) in
the special-cased hashtag column, and data cell (2,3). -/
theorem C8_style_application_witness :
    (((buildSheet sampleConfig [sampleRecord]).cells 1 1).font = some headerFont ∧
      ((buildSheet sampleConfig [sampleRecord]).cells 1 1).fill = some headerFill ∧
      ((buildSheet sampleConfig [sampleRecord]).cells 1 1).alignment =
        some headerAlignment ∧
      ((buildSheet sampleConfig [sampleRecord]).cells 1 1).border = some thinBorder) ∧
    (((buildSheet sampleConfig [sampleRecord]).cells 2 8).alignment =
        some dataAlignment ∧
      ((buildSheet sampleConfig [sampleRecord]).cells 2 8).border = some thinBorder) ∧
    (((buildSheet sampleConfig [sampleRecord]).cells 2 3).alignment =
        some dataAlignment ∧
      ((buildSheet sampleConfig [sampleRecord]).cells 2 3).border = some thinBorder) ∧
    hashtagAlignment = dataAlignment := by
  have h := C8_style_application sampleConfig [sampleRecord]
  exact ⟨h.1 1 (by decide) (by decide),
    h.2.1 2 8 (by decide) (by decide) (by decide) (by decide),
    h.2.1 2 3 (by decide) (by decide) (by decide) (by decide),
    h.2.2⟩

/-- C10: For the empty record list both export operations still succeed: the
data loop and the data-row styling loop run zero iterations (`addData` is
the identity and `applyStyles` reduces to its header pass), the workbook
contains exactly the header row (every cell outside row 1 is untouched),
headers are still written, and header columns still receive a width; no
error is raised for zero records. -/
theorem C10_empty_record_list (cfg : ExcelConfig) (p : FilePath) (t : Timestamp)
    (w : World) (tw : TmpWorld)
    (hm : w.mkdirFails = false) (hc : w.copyFails = false) (hs : w.saveFails = false)
    (hts : tw.saveFails = false) (htr : tw.readFails = false) :
    (exportFn cfg [] p t w).1 = Except.ok p ∧
    (getBinaryData cfg [] tw).1 = Except.ok (Content.wb (buildSheet cfg [])) ∧
    (∀ s, addData s [] = s) ∧
    (∀ s, applyStyles cfg s 0 =
      (List.range' 1 cfg.headers.length).foldl applyHeaderStyle s) ∧
    (∀ r c, r ≠ 1 → (buildSheet cfg []).cells r c = Cell.empty) ∧
    ((cfg.headers.map Prod.fst).Nodup →
      ∀ pr ∈ cfg.headers, ((buildSheet cfg []).cells 1 pr.1).value = Value.str pr.2) ∧
    (∀ pr ∈ cfg.headers, ((buildSheet cfg []).widths pr.1).isSome = true) := by
  refine ⟨?_, ?_, fun s => rfl, fun s => rfl, ?_, ?_, ?_⟩
  · cases hfs : fsLookup w.fs p with
    | some orig =>
      rw [exportFn]
      simp [hm, hc, hs, hfs]
    | none =>
      rw [exportFn]
      simp [hm, hs, hfs]
  · rw [getBinaryData]
    simp [hts, htr]
  · intro r c hr
    calc (buildSheet cfg [] : Sheet).cells r c
        = ((List.range' 1 cfg.headers.length).foldl applyHeaderStyle
            (adjustColumnWidths (addData (setHeaders cfg Sheet.empty) []))).cells r c :=
          rfl
      _ = (adjustColumnWidths (addData (setHeaders cfg Sheet.empty) [])).cells r c :=
          headerFold_cells_ne_row _ _ r c hr
      _ = (setHeaders cfg Sheet.empty).cells r c := by rw [adjust_cells]; rfl
      _ = Sheet.empty.cells r c :=
          headersFold_cells_ne_row cfg.headers Sheet.empty r c hr
      _ = Cell.empty := rfl
  · intro hnd pr hpr
    rw [buildSheet_value]
    exact headersFold_value_mem cfg.headers Sheet.empty pr.1 pr.2 hnd hpr
  · intro pr hpr
    have hmem : (1, pr.1) ∈ (addData (setHeaders cfg Sheet.empty)
        ([] : List ProcessResult)).touched :=
      headersFold_touched_mem cfg.headers Sheet.empty pr hpr
    rw [buildSheet_widths, adjust_widths_touched _ 1 pr.1 hmem]
    rfl

/-- C10 witness: concrete empty-record export in a fully succeeding world. -/
theorem C10_empty_record_list_witness :
    (exportFn sampleConfig [] samplePath sampleTime sampleWorld).1 =
      Except.ok samplePath ∧
    (getBinaryData sampleConfig [] sampleTmpWorld).1 =
      Except.ok (Content.wb (buildSheet sampleConfig [])) ∧
    addData sampleSheet [] = sampleSheet ∧
    applyStyles sampleConfig sampleSheet 0 =
      (List.range' 1 sampleConfig.headers.length).foldl applyHeaderStyle sampleSheet ∧
    (buildSheet sampleConfig []).cells 3 5 = Cell.empty ∧
    ((buildSheet sampleConfig []).cells 1 1).value = Value.str "stylist" ∧
    ((buildSheet sampleConfig []).widths 1).isSome = true := by
  have h := C10_empty_record_list sampleConfig samplePath sampleTime sampleWorld
    sampleTmpWorld rfl rfl rfl rfl rfl
  exact ⟨h.1, h.2.1, h.2.2.1 sampleSheet, h.2.2.2.1 sampleSheet,
    h.2.2.2.2.1 3 5 (by decide),
    h.2.2.2.2.2.1 (by decide) (1, "stylist") (by decide),
    h.2.2.2.2.2.2 (1, "stylist") (by decide)⟩
